import Mathlib

/-!
Verification of the flask_cqlalchemy connection-lifecycle manager
(src/flask_cqlalchemy/__init__.py) against its specification.

The module is a thin wrapper around the cassandra driver's cqlengine
layer.  We embed it shallowly: the driver's process-wide connection
state (the globals `connection.cluster`, `connection.session`,
`models.DEFAULT_KEYSPACE`) becomes an explicit state record `St`,
driver-level side effects become entries of an action trace `Act`, and
each method of the `CQLAlchemy` class becomes a Lean function that
threads the state explicitly.  Handles (cluster/session pairs) are
identified by natural numbers issued in creation order.
-/

/-- Driver-level side effects observable at the wrapper boundary
(per spec section 6: connect, client.shutdown, session.shutdown,
table-sync, plus the two optional lifecycle-hook registrations). -/
inductive Act where
  | registerPostfork
  | registerCeleryHooks
  | clusterShutdown (h : Nat)
  | sessionShutdown (h : Nat)
  | connectionSetup (hosts : List String) (keyspace : String)
      (consistency : Nat) (lazyConnect : Bool) (retryConnect : Bool)
      (kwargs : List (String × String))
  | syncTable (name : String)
deriving DecidableEq, Repr

/-- The driver's process-wide mutable state, modelled explicitly.
`clusterG`/`sessionG` are the globals `connection.cluster` and
`connection.session` (the handle id both point at after a setup);
`created` records every handle ever created by `connection.setup`, in
order; `shutClusters`/`shutSessions` record the handle ids on whose
cluster/session object `.shutdown()` was invoked; `defaultKeyspace` is
the global `models.DEFAULT_KEYSPACE`; `synced` records the model names
passed to `sync_table`, in call order. -/
structure St where
  clusterG : Option Nat := none
  sessionG : Option Nat := none
  created : List Nat := []
  shutClusters : List Nat := []
  shutSessions : List Nat := []
  defaultKeyspace : String := "cqlengine"
  synced : List String := []
deriving DecidableEq, Repr

/-- The driver state of a fresh process, before any connection. -/
def initSt : St := {}

/-- A handle is live when it has been created and neither its cluster
nor its session has been shut down. -/
def liveHandles (s : St) : List Nat :=
  s.created.filter (fun h => !(s.shutClusters.contains h) && !(s.shutSessions.contains h))

/-- The module-level names bound by line 13,
`from cassandra.cqlengine.connection import cluster, session`:
they are copies of the driver globals taken once, at import time. -/
structure ModuleAliases where
  cluster : Option Nat
  session : Option Nat
deriving DecidableEq, Repr

/-- Importing flask_cqlalchemy captures the driver globals as they are
at that moment (line 13 of the source). -/
def importModule (s : St) : ModuleAliases := ⟨s.clusterG, s.sessionG⟩

/-- The aliases captured when the module is imported in a fresh
process, the scenario the library supports: both globals are absent. -/
def freshModule : ModuleAliases := importModule initSt

/-- A Python class as seen by `get_subclasses`: a name, the
`__abstract__` flag, and the list of direct subclasses returned by
`__subclasses__()`.  Two occurrences of structurally equal nodes model
the same Python class object (e.g. one class listed as a direct
subclass of two distinct parents). -/
inductive PyClass where
  | mk (name : String) (abstract : Bool) (subclasses : List PyClass)

def PyClass.name : PyClass → String
  | .mk n _ _ => n

def PyClass.abstract : PyClass → Bool
  | .mk _ a _ => a

def PyClass.subclasses : PyClass → List PyClass
  | .mk _ _ s => s

/-- `flatten(lists)`: flatten a list of lists into a single list,
keeping order (source lines 126-128). -/
def flatten (lists : List (List PyClass)) : List PyClass :=
  lists.foldr (fun sublist acc => sublist ++ acc) []

/-- `get_subclasses(cls)` (source lines 131-136): if `cls` is abstract,
recurse into its direct subclasses and flatten the results; otherwise
return the singleton `[cls]`. -/
def get_subclasses : PyClass → List PyClass
  | .mk n a subs =>
    if a then
      flatten (subs.attach.map (fun c => get_subclasses c.1))
    else
      [.mk n a subs]
decreasing_by
  have hm := List.sizeOf_lt_of_mem c.2
  simp only [PyClass.mk.sizeOf_spec]
  omega

/-- All transitive subclasses of a class (the full subclass graph,
used to state what "every subclass, transitively" means). -/
def descendants : PyClass → List PyClass
  | .mk _ _ subs =>
    subs ++ flatten (subs.attach.map (fun c => descendants c.1))
decreasing_by
  have hm := List.sizeOf_lt_of_mem c.2
  simp only [PyClass.mk.sizeOf_spec]
  omega

/-- The host application's configuration store, restricted to the keys
the wrapper reads.  `CASSANDRA_HOSTS` and `CASSANDRA_KEYSPACE` are
accessed with `[...]` (required); the rest with `.get(key, default)`
(optional, hence `Option`). -/
structure AppConfig where
  CASSANDRA_HOSTS : List String
  CASSANDRA_KEYSPACE : String
  CASSANDRA_CONSISTENCY : Option Nat := none
  CASSANDRA_LAZY_CONNECT : Option Bool := none
  CASSANDRA_RETRY_CONNECT : Option Bool := none
  CASSANDRA_SETUP_KWARGS : Option (List (String × String)) := none
deriving DecidableEq, Repr

/-- The `NoConfig` exception (source lines 120-122). -/
structure NoConfigE where
  msg : String
deriving DecidableEq, Repr

/-- The instance attributes of a `CQLAlchemy` object. -/
structure Manager where
  app : Option AppConfig
  Model : PyClass
  hosts_ : List String
  keyspace_ : String
  consistency : Nat
  lazy_connect : Bool
  retry_connect : Bool
  setup_kwargs : List (String × String)

/-- `shutdown_connection` (source lines 85-89): if the module-level
alias `cluster` is not None, call `.shutdown()` on it; independently,
if the alias `session` is not None, call `.shutdown()` on it.  The
aliases tested are the import-time copies in `m`, not the current
driver globals. -/
def shutdown_connection (m : ModuleAliases) (s : St) : St × List Act :=
  let (s1, t1) :=
    match m.cluster with
    | none => (s, ([] : List Act))
    | some c => ({ s with shutClusters := s.shutClusters ++ [c] }, [Act.clusterShutdown c])
  let (s2, t2) :=
    match m.session with
    | none => (s1, ([] : List Act))
    | some c => ({ s1 with shutSessions := s1.shutSessions ++ [c] }, [Act.sessionShutdown c])
  (s2, t1 ++ t2)

/-- `connection.setup(...)` of the driver, per spec section 6: creates
a fresh cluster client + session pair and replaces the process-wide
singleton globals with it.  The new handle gets the next unused id. -/
def connectionSetup (hosts : List String) (keyspace : String) (consistency : Nat)
    (lazyConnect retryConnect : Bool) (kwargs : List (String × String))
    (s : St) : St × List Act :=
  let h := s.created.length
  ({ s with created := s.created ++ [h], clusterG := some h, sessionG := some h },
   [Act.connectionSetup hosts keyspace consistency lazyConnect retryConnect kwargs])

/-- `setup_connection` (source lines 91-98): call `shutdown_connection`
first, then `connection.setup` with the stored configuration. -/
def setup_connection (m : ModuleAliases) (self : Manager) (s : St) : St × List Act :=
  let (s1, t1) := shutdown_connection m s
  let (s2, t2) := connectionSetup self.hosts_ self.keyspace_ self.consistency
      self.lazy_connect self.retry_connect self.setup_kwargs s1
  (s2, t1 ++ t2)

/-- The message of the `NoConfig` raised by `init_app`. -/
def noConfigMsg : String :=
  "No Configuration options defined.\n            At least CASSANDRA_HOSTS and CASSANDRA_CONSISTENCY\n            must be supplied"

/-- `init_app` (source lines 38-83): store the six configuration
values on `self`; raise `NoConfig` when `not self._hosts_ and
self._keyspace_` (hosts falsy AND keyspace truthy); otherwise register
the uWSGI postfork hook when uwsgidecorators is importable and the
three Celery hooks when celery is importable, and unconditionally call
`setup_connection` last.  The result carries the manager and driver
state as they are when the call returns or the exception propagates
(Python does not roll back assignments on raise). -/
def init_app (m : ModuleAliases) (self : Manager) (app : AppConfig)
    (uwsgiInstalled celeryInstalled : Bool) (s : St) :
    Except NoConfigE Unit × Manager × St × List Act :=
  let self := { self with
    hosts_ := app.CASSANDRA_HOSTS
    keyspace_ := app.CASSANDRA_KEYSPACE
    consistency := app.CASSANDRA_CONSISTENCY.getD 1
    lazy_connect := app.CASSANDRA_LAZY_CONNECT.getD false
    retry_connect := app.CASSANDRA_RETRY_CONNECT.getD false
    setup_kwargs := app.CASSANDRA_SETUP_KWARGS.getD [] }
  if self.hosts_.isEmpty && !self.keyspace_.isEmpty then
    (.error ⟨noConfigMsg⟩, self, s, [])
  else
    let hookActs :=
      (if uwsgiInstalled then [Act.registerPostfork] else []) ++
      (if celeryInstalled then [Act.registerCeleryHooks] else [])
    let (s1, t1) := setup_connection m self s
    (.ok (), self, s1, hookActs ++ t1)

/-- `sync_db` (source lines 100-106): call `sync_table` on every class
returned by `get_subclasses(self.Model)`, in order. -/
def sync_db (self : Manager) (s : St) : St × List Act :=
  let ms := get_subclasses self.Model
  ({ s with synced := s.synced ++ ms.map PyClass.name },
   ms.map (fun c => Act.syncTable c.name))

/-- Python truthiness of the `keyspace_name` parameter: `None` and the
empty string are falsy. -/
def pyFalsy : Option String → Bool
  | none => true
  | some s => s.isEmpty

/-- `set_keyspace` (source lines 108-117): if `keyspace_name` is falsy,
replace it by `self.app.config['CASSANDRA_KEYSPACE']` (an
AttributeError, modelled as `none`, when `self.app` is None); then
assign it to the global `models.DEFAULT_KEYSPACE` and to
`self._keyspace_`. -/
def set_keyspace (self : Manager) (s : St) (keyspace_name : Option String) :
    Option (Manager × St) :=
  let kn : Option String :=
    if pyFalsy keyspace_name then
      self.app.map (fun a => a.CASSANDRA_KEYSPACE)
    else
      keyspace_name
  match kn with
  | none => none
  | some k => some ({ self with keyspace_ := k }, { s with defaultKeyspace := k })

/-! ### Helper lemmas -/

theorem flatten_eq_flatten (L : List (List PyClass)) : flatten L = L.flatten := by
  induction L with
  | nil => rfl
  | cons h t ih => simp [flatten, List.flatten] at ih ⊢; exact ih

theorem mem_flatten_iff {c : PyClass} {L : List (List PyClass)} :
    c ∈ flatten L ↔ ∃ l ∈ L, c ∈ l := by
  rw [flatten_eq_flatten]
  exact List.mem_flatten

/-- The recursion equation of `get_subclasses`, with the termination
bookkeeping (`List.attach`) removed. -/
theorem get_subclasses_eq (n : String) (a : Bool) (subs : List PyClass) :
    get_subclasses (.mk n a subs) =
      if a then flatten (subs.map (fun c => get_subclasses c)) else [.mk n a subs] := by
  rw [get_subclasses]
  simp [List.map_attach]

/-- The recursion equation of `descendants`, with the termination
bookkeeping removed. -/
theorem descendants_eq (n : String) (a : Bool) (subs : List PyClass) :
    descendants (.mk n a subs) =
      subs ++ flatten (subs.map (fun c => descendants c)) := by
  rw [descendants]
  simp [List.map_attach]

theorem string_ne_isEmpty {s : String} (h : s ≠ "") : s.isEmpty = false := by
  cases h2 : s.isEmpty
  · rfl
  · exact absurd ((String.isEmpty_iff s).mp h2) h

theorem list_ne_isEmpty {α : Type} {l : List α} (h : l ≠ []) : l.isEmpty = false := by
  cases l
  · exact absurd rfl h
  · rfl

/-- Every class returned by `get_subclasses` is non-abstract. -/
theorem get_subclasses_concrete :
    ∀ (cls c : PyClass), c ∈ get_subclasses cls → c.abstract = false := by
  intro cls
  induction cls using get_subclasses.induct with
  | case1 n subs ih =>
    intro c hc
    rw [get_subclasses_eq, if_pos rfl] at hc
    rw [mem_flatten_iff] at hc
    obtain ⟨l, hl, hcl⟩ := hc
    rw [List.mem_map] at hl
    obtain ⟨sub, hsub, rfl⟩ := hl
    exact ih ⟨sub, hsub⟩ c hcl
  | case2 n a subs ha =>
    intro c hc
    rw [get_subclasses_eq, if_neg ha] at hc
    simp only [List.mem_singleton] at hc
    subst hc
    simp only [PyClass.abstract]
    exact eq_false_of_ne_true ha

/-! ### Concrete fixtures -/

/-- An abstract base model with no subclasses (cqlengine's `Model`). -/
def baseModel : PyClass := .mk "Model" true []

/-- A manager object with vacuous attribute values, used as the
starting point of concrete scenarios. -/
def mgr0 : Manager :=
  { app := none, Model := baseModel, hosts_ := [], keyspace_ := "",
    consistency := 1, lazy_connect := false, retry_connect := false,
    setup_kwargs := [] }

def clsB : PyClass := .mk "B" false []
def clsC : PyClass := .mk "C" false []
def clsD : PyClass := .mk "D" false []
def clsA : PyClass := .mk "A" true [clsB, clsC]

/-- Base type with abstract subclass A (concrete children B, C) and
concrete subclass D directly under the base. -/
def base4 : PyClass := .mk "Model" true [clsA, clsD]

def mgr4 : Manager := { mgr0 with Model := base4 }

def clsE : PyClass := .mk "E" false []

/-- A concrete class B that itself has a concrete subclass E. -/
def clsBE : PyClass := .mk "B" false [clsE]

/-- Base type whose only subclass is the concrete B, which in turn has
the concrete subclass E. -/
def base4c : PyClass := .mk "Model" true [clsBE]

def clsX : PyClass := .mk "X" false []
def clsA1 : PyClass := .mk "A1" true [clsX]
def clsA2 : PyClass := .mk "A2" true [clsX]

/-- Diamond: the concrete class X is a direct subclass of the two
abstract classes A1 and A2, both under the base. -/
def base9 : PyClass := .mk "Model" true [clsA1, clsA2]

def mgr9 : Manager := { mgr0 with Model := base9 }

/-- A manager bound to hosts ["10.0.0.1"], keyspace "ks1". -/
def mgrC2 : Manager := { mgr0 with hosts_ := ["10.0.0.1"], keyspace_ := "ks1" }

/-! ### Claims -/

/-- Claim C1, counterexample: with an empty host list and an empty
(falsy) keyspace, `init_app` does not raise `NoConfig` — it returns
normally and creates a connection handle from that configuration
(line 51 tests `not hosts and keyspace`, so a falsy keyspace skips the
raise). -/
theorem C1_counterexample :
    ((init_app freshModule mgr0 { CASSANDRA_HOSTS := [], CASSANDRA_KEYSPACE := "" }
        false false initSt).1 = .ok ()) ∧
    liveHandles (init_app freshModule mgr0 { CASSANDRA_HOSTS := [], CASSANDRA_KEYSPACE := "" }
        false false initSt).2.2.1 = [0] := by
  exact ⟨rfl, rfl⟩

/-- Claim C1, amended: `init_app` raises `NoConfig` exactly when the
host list is empty AND the keyspace is non-empty; when it raises, the
driver state is untouched and no action (in particular no connection
setup) is performed, so no handle is created. -/
theorem C1_empty_hosts_raises_only_with_truthy_keyspace
    (m : ModuleAliases) (self : Manager) (app : AppConfig)
    (u c : Bool) (s : St) :
    ((init_app m self app u c s).1 = .error ⟨noConfigMsg⟩ ↔
      (app.CASSANDRA_HOSTS = [] ∧ app.CASSANDRA_KEYSPACE ≠ "")) ∧
    (app.CASSANDRA_HOSTS = [] → app.CASSANDRA_KEYSPACE ≠ "" →
      (init_app m self app u c s).2.2.1 = s ∧ (init_app m self app u c s).2.2.2 = []) := by
  constructor
  · constructor
    · intro he
      by_cases hb : (app.CASSANDRA_HOSTS.isEmpty && !app.CASSANDRA_KEYSPACE.isEmpty) = true
      · rw [Bool.and_eq_true, Bool.not_eq_true'] at hb
        obtain ⟨h1, h2⟩ := hb
        refine ⟨List.isEmpty_iff.mp h1, ?_⟩
        intro hk
        rw [hk] at h2
        exact absurd h2 (by decide)
      · exfalso
        rw [Bool.not_eq_true] at hb
        simp [init_app, hb] at he
    · rintro ⟨h1, h2⟩
      simp [init_app, h1, string_ne_isEmpty h2]
  · intro h1 h2
    constructor
    · simp [init_app, h1, string_ne_isEmpty h2]
    · simp [init_app, h1, string_ne_isEmpty h2]

/-- Witness for C1: concrete instance at hosts = [], keyspace = "ks1". -/
theorem C1_empty_hosts_raises_only_with_truthy_keyspace_witness :
    ((init_app freshModule mgr0 { CASSANDRA_HOSTS := [], CASSANDRA_KEYSPACE := "ks1" }
        false false initSt).1 = .error ⟨noConfigMsg⟩ ↔
      (([] : List String) = [] ∧ "ks1" ≠ "")) ∧
    (([] : List String) = [] → "ks1" ≠ "" →
      (init_app freshModule mgr0 { CASSANDRA_HOSTS := [], CASSANDRA_KEYSPACE := "ks1" }
          false false initSt).2.2.1 = initSt ∧
      (init_app freshModule mgr0 { CASSANDRA_HOSTS := [], CASSANDRA_KEYSPACE := "ks1" }
          false false initSt).2.2.2 = []) :=
  C1_empty_hosts_raises_only_with_truthy_keyspace freshModule mgr0
    { CASSANDRA_HOSTS := [], CASSANDRA_KEYSPACE := "ks1" } false false initSt

/-- Claim C2: the spec requires that a second `setup_connection` first
release the handle made by the first call, leaving one live handle.
The code violates this: after two calls both handles are live, nothing
was ever shut down, and the second call's trace is only the connection
setup.  `shutdown_connection` tests the import-time aliases (both
`None`), so the teardown `setup_connection` begins with is a no-op. -/
theorem C2_double_setup_leaks_first_handle :
    liveHandles (setup_connection freshModule mgrC2
      (setup_connection freshModule mgrC2 initSt).1).1 = [0, 1] ∧
    (setup_connection freshModule mgrC2
      (setup_connection freshModule mgrC2 initSt).1).1.shutClusters = [] ∧
    (setup_connection freshModule mgrC2
      (setup_connection freshModule mgrC2 initSt).1).1.shutSessions = [] ∧
    (setup_connection freshModule mgrC2
      (setup_connection freshModule mgrC2 initSt).1).2 =
      [Act.connectionSetup ["10.0.0.1"] "ks1" 1 false false []] := by
  exact ⟨rfl, rfl, rfl, rfl⟩

/-- Claim C3: `shutdown_connection` tests the aliases bound at
module-import time (both absent in a fresh process), so after any
`setup_connection`, a subsequent `shutdown_connection` changes nothing
and invokes no shutdown on the new connection's cluster or session;
indeed `shutdown_connection` with the import-time aliases is the
identity with an empty trace on every state. -/
theorem C3_shutdown_tests_import_time_aliases (self : Manager) (s : St) :
    shutdown_connection freshModule ((setup_connection freshModule self s).1) =
      ((setup_connection freshModule self s).1, ([] : List Act)) ∧
    shutdown_connection freshModule s = (s, ([] : List Act)) := by
  exact ⟨rfl, rfl⟩

/-- Claim C4, counterexample: E is a concrete, transitive subclass of
the base (via the concrete class B), yet discovery returns only B and
`sync_db` never syncs E — the recursion stops at the first
non-abstract class on each path. -/
theorem C4_counterexample :
    clsE.abstract = false ∧
    (descendants base4c).map PyClass.name = ["B", "E"] ∧
    (get_subclasses base4c).map PyClass.name = ["B"] ∧
    (sync_db { mgr0 with Model := base4c } initSt).2 = [Act.syncTable "B"] := by
  refine ⟨rfl, ?_, ?_, ?_⟩
  · simp [base4c, clsBE, clsE, descendants_eq, flatten, PyClass.name]
  · simp [base4c, clsBE, clsE, get_subclasses_eq, flatten, PyClass.name]
  · simp [sync_db, base4c, clsBE, clsE, get_subclasses_eq, flatten, PyClass.name]

/-- Claim C4, amended: discovery returns only concrete classes,
recursing only through abstract ones (a concrete class is a singleton
result and its own subclasses are not explored); for the base with
abstract subclass A (concrete children B, C) and concrete subclass D
directly under the base, discovery returns B, C, D, each exactly once,
and `sync_db` triggers one table-sync for each. -/
theorem C4_discovery_concrete_only_through_abstract :
    (∀ (cls c : PyClass), c ∈ get_subclasses cls → c.abstract = false) ∧
    (get_subclasses base4).map PyClass.name = ["B", "C", "D"] ∧
    (sync_db mgr4 initSt).2 = [Act.syncTable "B", Act.syncTable "C", Act.syncTable "D"] ∧
    (sync_db mgr4 initSt).1.synced = ["B", "C", "D"] := by
  refine ⟨get_subclasses_concrete, ?_, ?_, ?_⟩ <;>
    simp [sync_db, mgr4, mgr0, base4, clsA, clsB, clsC, clsD,
          get_subclasses_eq, flatten, PyClass.name, initSt]

/-- Witness for C4: the class B is in the discovery result of the
example base, and the theorem yields that it is concrete. -/
theorem C4_discovery_concrete_only_through_abstract_witness :
    clsB.abstract = false :=
  C4_discovery_concrete_only_through_abstract.1 base4 clsB (by
    simp [base4, clsA, clsB, clsC, clsD, get_subclasses_eq, flatten])

/-- A manager previously bound to a complete configuration, used to
exhibit the state mutation a failed re-bind leaves behind. -/
def mgrOld : Manager :=
  { app := none, Model := baseModel, hosts_ := ["oldhost"], keyspace_ := "old",
    consistency := 7, lazy_connect := true, retry_connect := true,
    setup_kwargs := [("a", "b")] }

/-- A configuration that makes `init_app` raise: empty hosts, truthy
keyspace. -/
def appNew : AppConfig := { CASSANDRA_HOSTS := [], CASSANDRA_KEYSPACE := "new" }

/-- Claim C5, counterexample: a failed bind is not atomic.  Re-binding
`mgrOld` with a raising configuration raises `NoConfig`, yet the
manager's attributes have been overwritten (keyspace "old" became
"new", hosts ["oldhost"] became []). -/
theorem C5_counterexample :
    ((init_app freshModule mgrOld appNew false false initSt).1 = .error ⟨noConfigMsg⟩) ∧
    mgrOld.keyspace_ = "old" ∧
    ((init_app freshModule mgrOld appNew false false initSt).2.1.keyspace_ = "new") ∧
    mgrOld.hosts_ = ["oldhost"] ∧
    ((init_app freshModule mgrOld appNew false false initSt).2.1.hosts_ = []) := by
  exact ⟨rfl, rfl, rfl, rfl, rfl⟩

/-- Claim C5, amended: when `init_app` raises `NoConfig` it creates no
connection and registers no hook (empty trace, driver state
untouched), but it is not atomic on the manager object: the six
configuration attributes have already been overwritten with the values
read from the failing configuration. -/
theorem C5_failed_bind_overwrites_config_attrs
    (m : ModuleAliases) (self : Manager) (app : AppConfig) (u c : Bool) (s : St)
    (h1 : app.CASSANDRA_HOSTS = []) (h2 : app.CASSANDRA_KEYSPACE ≠ "") :
    init_app m self app u c s =
      (.error ⟨noConfigMsg⟩,
       { self with
          hosts_ := app.CASSANDRA_HOSTS
          keyspace_ := app.CASSANDRA_KEYSPACE
          consistency := app.CASSANDRA_CONSISTENCY.getD 1
          lazy_connect := app.CASSANDRA_LAZY_CONNECT.getD false
          retry_connect := app.CASSANDRA_RETRY_CONNECT.getD false
          setup_kwargs := app.CASSANDRA_SETUP_KWARGS.getD [] },
       s, []) := by
  simp [init_app, h1, string_ne_isEmpty h2]

/-- Witness for C5: the amended statement at the concrete re-bind of
`mgrOld` with `appNew`. -/
theorem C5_failed_bind_overwrites_config_attrs_witness :
    init_app freshModule mgrOld appNew false false initSt =
      (.error ⟨noConfigMsg⟩,
       { mgrOld with
          hosts_ := []
          keyspace_ := "new"
          consistency := 1
          lazy_connect := false
          retry_connect := false
          setup_kwargs := [] },
       initSt, []) :=
  C5_failed_bind_overwrites_config_attrs freshModule mgrOld appNew false false initSt
    rfl (by decide)

/-- Claim C6: from the fresh-process state, binding a configuration
with a non-empty host list and a non-empty keyspace succeeds, its last
action is the connection setup performed by `setup_connection` (called
unconditionally at the end of `init_app`), and exactly one live
connection handle results, which the driver globals point at. -/
theorem C6_bind_succeeds_and_connects_last
    (self : Manager) (app : AppConfig) (u c : Bool)
    (hh : app.CASSANDRA_HOSTS ≠ []) (hk : app.CASSANDRA_KEYSPACE ≠ "") :
    ((init_app freshModule self app u c initSt).1 = .ok ()) ∧
    liveHandles (init_app freshModule self app u c initSt).2.2.1 = [0] ∧
    ((init_app freshModule self app u c initSt).2.2.1.clusterG = some 0) ∧
    ((init_app freshModule self app u c initSt).2.2.2.getLast? =
      some (Act.connectionSetup app.CASSANDRA_HOSTS app.CASSANDRA_KEYSPACE
        (app.CASSANDRA_CONSISTENCY.getD 1) (app.CASSANDRA_LAZY_CONNECT.getD false)
        (app.CASSANDRA_RETRY_CONNECT.getD false) (app.CASSANDRA_SETUP_KWARGS.getD []))) := by
  have hb := list_ne_isEmpty hh
  refine ⟨?_, ?_, ?_, ?_⟩ <;>
    cases u <;> cases c <;>
      simp [init_app, hb, setup_connection, shutdown_connection, connectionSetup,
            freshModule, importModule, initSt, liveHandles]

/-- Witness for C6: the scenario of spec section 8, hosts
["10.0.0.1"], keyspace "ks1". -/
theorem C6_bind_succeeds_and_connects_last_witness :
    ((init_app freshModule mgr0 { CASSANDRA_HOSTS := ["10.0.0.1"], CASSANDRA_KEYSPACE := "ks1" }
        false false initSt).1 = .ok ()) ∧
    liveHandles (init_app freshModule mgr0
        { CASSANDRA_HOSTS := ["10.0.0.1"], CASSANDRA_KEYSPACE := "ks1" }
        false false initSt).2.2.1 = [0] ∧
    ((init_app freshModule mgr0 { CASSANDRA_HOSTS := ["10.0.0.1"], CASSANDRA_KEYSPACE := "ks1" }
        false false initSt).2.2.1.clusterG = some 0) ∧
    ((init_app freshModule mgr0 { CASSANDRA_HOSTS := ["10.0.0.1"], CASSANDRA_KEYSPACE := "ks1" }
        false false initSt).2.2.2.getLast? =
      some (Act.connectionSetup ["10.0.0.1"] "ks1" 1 false false [])) :=
  C6_bind_succeeds_and_connects_last mgr0
    { CASSANDRA_HOSTS := ["10.0.0.1"], CASSANDRA_KEYSPACE := "ks1" }
    false false (by decide) (by decide)

/-- Claim C7: with no argument, `set_keyspace` writes the keyspace
read from the host application's configuration both to the global
default keyspace and to the manager's remembered keyspace; with a
non-empty argument it writes that argument to both; and the value
persists across the other operations (setup, shutdown, sync) until
`set_keyspace` is called again. -/
theorem C7_set_keyspace_semantics
    (self : Manager) (a : AppConfig) (s : St) (k : String)
    (happ : self.app = some a) (hk : k ≠ "") :
    (set_keyspace self s none =
      some ({ self with keyspace_ := a.CASSANDRA_KEYSPACE },
            { s with defaultKeyspace := a.CASSANDRA_KEYSPACE })) ∧
    (set_keyspace self s (some k) =
      some ({ self with keyspace_ := k }, { s with defaultKeyspace := k })) ∧
    (∀ (m : ModuleAliases) (mgr2 : Manager) (s2 : St),
      ((setup_connection m mgr2 s2).1.defaultKeyspace = s2.defaultKeyspace) ∧
      ((shutdown_connection m s2).1.defaultKeyspace = s2.defaultKeyspace) ∧
      ((sync_db mgr2 s2).1.defaultKeyspace = s2.defaultKeyspace)) := by
  refine ⟨?_, ?_, ?_⟩
  · simp [set_keyspace, pyFalsy, happ]
  · simp [set_keyspace, pyFalsy, string_ne_isEmpty hk]
  · intro m mgr2 s2
    rcases m with ⟨mc, ms⟩
    refine ⟨?_, ?_, ?_⟩ <;>
      cases mc <;> cases ms <;>
        simp [setup_connection, shutdown_connection, connectionSetup, sync_db]

/-- An application configuration used in concrete witnesses. -/
def appW : AppConfig := { CASSANDRA_HOSTS := ["h1"], CASSANDRA_KEYSPACE := "ks1" }

/-- A manager bound to `appW`. -/
def mgrW : Manager := { mgr0 with app := some appW, hosts_ := ["h1"], keyspace_ := "ks1" }

/-- Witness for C7: concrete instance with keyspace "ks1" configured
and argument "other". -/
theorem C7_set_keyspace_semantics_witness :
    (set_keyspace mgrW initSt none =
      some ({ mgrW with keyspace_ := "ks1" },
            { initSt with defaultKeyspace := "ks1" })) ∧
    (set_keyspace mgrW initSt (some "other") =
      some ({ mgrW with keyspace_ := "other" },
            { initSt with defaultKeyspace := "other" })) ∧
    (∀ (m : ModuleAliases) (mgr2 : Manager) (s2 : St),
      ((setup_connection m mgr2 s2).1.defaultKeyspace = s2.defaultKeyspace) ∧
      ((shutdown_connection m s2).1.defaultKeyspace = s2.defaultKeyspace) ∧
      ((sync_db mgr2 s2).1.defaultKeyspace = s2.defaultKeyspace)) :=
  C7_set_keyspace_semantics mgrW appW initSt "other" rfl (by decide)

/-- Claim C8: with the import-time aliases of a fresh process,
`shutdown_connection` raises nothing and changes nothing on any state
(empty trace), and a second call after a first is likewise a no-op on
the state the first left. -/
theorem C8_shutdown_idempotent (s : St) :
    shutdown_connection freshModule s = (s, ([] : List Act)) ∧
    shutdown_connection freshModule (shutdown_connection freshModule s).1 =
      ((shutdown_connection freshModule s).1, ([] : List Act)) := by
  exact ⟨rfl, rfl⟩

/-- Claim C9: in the diamond where the concrete class X is a direct
subclass of the two abstract classes A1 and A2, `get_subclasses`
returns X once per abstract parent, and `sync_db` therefore invokes
table-sync on X twice. -/
theorem C9_diamond_duplicate_sync :
    get_subclasses base9 = [clsX, clsX] ∧
    (sync_db mgr9 initSt).2 = [Act.syncTable "X", Act.syncTable "X"] ∧
    (sync_db mgr9 initSt).1.synced = ["X", "X"] := by
  refine ⟨?_, ?_, ?_⟩ <;>
    simp [sync_db, mgr9, mgr0, base9, clsA1, clsA2, clsX,
          get_subclasses_eq, flatten, PyClass.name, initSt]

/-- Claim C10: `set_keyspace` with the empty string behaves exactly
like `set_keyspace` with no argument (the parameter is tested for
Python truthiness), so it resets the global default keyspace and the
manager's remembered keyspace to the configured keyspace rather than
setting them to "". -/
theorem C10_empty_string_like_no_argument (self : Manager) (s : St) :
    (set_keyspace self s (some "") = set_keyspace self s none) ∧
    (∀ a : AppConfig, self.app = some a →
      set_keyspace self s (some "") =
        some ({ self with keyspace_ := a.CASSANDRA_KEYSPACE },
              { s with defaultKeyspace := a.CASSANDRA_KEYSPACE })) := by
  constructor
  · rfl
  · intro a ha
    have he : "".isEmpty = true := by decide
    simp [set_keyspace, pyFalsy, ha, he]

/-- Witness for C10: concrete instance with keyspace "ks1"
configured. -/
theorem C10_empty_string_like_no_argument_witness :
    (set_keyspace mgrW initSt (some "") = set_keyspace mgrW initSt none) ∧
    (set_keyspace mgrW initSt (some "") =
      some ({ mgrW with keyspace_ := "ks1" },
            { initSt with defaultKeyspace := "ks1" })) :=
  ⟨(C10_empty_string_like_no_argument mgrW initSt).1,
   (C10_empty_string_like_no_argument mgrW initSt).2 appW rfl⟩

/-- Witness for C3: concrete instance at `mgr0` and the fresh state. -/
theorem C3_shutdown_tests_import_time_aliases_witness :
    shutdown_connection freshModule ((setup_connection freshModule mgr0 initSt).1) =
      ((setup_connection freshModule mgr0 initSt).1, ([] : List Act)) ∧
    shutdown_connection freshModule initSt = (initSt, ([] : List Act)) :=
  C3_shutdown_tests_import_time_aliases mgr0 initSt

/-- Witness for C8: concrete instance at the fresh state. -/
theorem C8_shutdown_idempotent_witness :
    shutdown_connection freshModule initSt = (initSt, ([] : List Act)) ∧
    shutdown_connection freshModule (shutdown_connection freshModule initSt).1 =
      ((shutdown_connection freshModule initSt).1, ([] : List Act)) :=
  C8_shutdown_idempotent initSt
